import Mathlib

/-!
Verification development for the libredfish GB200 (nvidia_gbx00) backend.

The Rust source is shallowly embedded: each BMC interaction is modelled as a
pure function over an environment of decoded BMC responses, returning the
computed value together with the list of state-changing requests it issues.
Types and functions keep the source's names where Lean allows it.  A few model
types (Sensor, PowerSupply, Task, the RedfishError enum, ...) live in source
files that are not part of the provided slice; those are reconstructed from the
specification and from their use sites, and are marked as such.
-/

namespace Libredfish

/-- Prefix test on character lists: pr is a prefix of s.  Used to model Rust
str::starts_with and as the kernel of the substring test. -/
def prefOf : List Char → List Char → Bool
  | [], _ => true
  | _ :: _, [] => false
  | a :: pr, b :: s => a == b && prefOf pr s

/-- Substring occurrence on character lists: p occurs somewhere inside s.
Models Rust str::contains (byte-substring search agrees with character
substring search on valid UTF-8). -/
def hasSub (p : List Char) : List Char → Bool
  | [] => p.isEmpty
  | c :: rest => prefOf p (c :: rest) || hasSub p rest

/-- Rust s.contains(pat). -/
def strContains (s pat : String) : Bool := hasSub pat.data s.data

/-- Rust s.starts_with(pat). -/
def strStarts (s pat : String) : Bool := prefOf pat.data s.data

/-- Rust s.to_lowercase(), restricted to the simple per-character mapping,
which is all the source relies on (the strings involved are ASCII). -/
def lowerStr (s : String) : String := String.mk (s.data.map Char.toLower)

/-- Fueled replace-all on character lists; fuel is the length of the subject
so the recursion is structural and kernel-reducible.  Models Rust
str::replace for a non-empty pattern. -/
def replAllF (p r : List Char) : Nat → List Char → List Char
  | _, [] => []
  | 0, s => s
  | fuel + 1, c :: rest =>
    if prefOf p (c :: rest) && !p.isEmpty then
      r ++ replAllF p r fuel (List.drop (p.length - 1) rest)
    else
      c :: replAllF p r fuel rest

/-- Rust s.replace(p, r). -/
def replaceAll (s p r : String) : String :=
  String.mk (replAllF p.data r.data s.data.length s.data)

/-- Modelled from the spec: REDFISH_ENDPOINT, defined in the network module
that is missing from the slice; the spec fixes the prefix /redfish/v1/. -/
def REDFISH_ENDPOINT : String := "redfish/v1"

/-- The URL-relativization applied throughout the backend:
odata_id.replace(&format(slash REDFISH_ENDPOINT slash), ""). -/
def relUrl (odata_id : String) : String :=
  replaceAll odata_id ("/" ++ REDFISH_ENDPOINT ++ "/") ""

/-- Modelled from the spec: the RedfishError enum of src/error.rs, which is
missing from the slice.  Constructors follow section 7 of the spec and the
use sites in nvidia_gbx00.rs (NotSupported(String), FileError(String),
JsonDeserializeError with url and body). -/
inductive RedfishError : Type
  | Transport (msg : String)
  | Authentication (msg : String)
  | NotFound (msg : String)
  | JsonDeserializeError (url : String) (body : String)
  | RemoteError (status : Nat) (msg : String)
  | NotSupported (msg : String)
  | FileError (msg : String)
  | Timeout (msg : String)
  | Invariant (msg : String)
deriving DecidableEq, Repr

/-- Bodies of PATCH requests issued by the operations under study. -/
inductive PatchBody : Type
  | bootOrder (order : List String)
  | bootOverride (enabled : String) (target : String)
deriving DecidableEq, Repr

/-- Abstract log entry for one BMC request issued by an operation. -/
inductive Request : Type
  | getSystem
  | getBootOption (id : String)
  | getUpdateService
  | patch (url : String) (body : PatchBody)
  | multipart (url : String) (filename : String) (parameters : String)
deriving DecidableEq, Repr

/-- The URL a PATCH in the log targets (empty for non-PATCH entries). -/
def patchUrl : Request → Option String
  | Request.patch url _ => some url
  | _ => none

/-- The boot orders carried by the PATCH requests of a log. -/
def patchedOrders (log : List Request) : List (List String) :=
  log.filterMap fun r =>
    match r with
    | Request.patch _ (PatchBody.bootOrder l) => some l
    | _ => none

/-- crate::Boot, the facade-level boot target.  The GB200 block is the
authoritative richer API and matches on Pxe, HardDisk and UefiHttp. -/
inductive Boot : Type
  | Pxe
  | HardDisk
  | UefiHttp
deriving DecidableEq, Repr

/-- BootOptionName from nvidia_gbx00.rs. -/
inductive BootOptionName : Type
  | Http
  | Pxe
  | Hdd
deriving DecidableEq, Repr

/-- BootOptionName::to_string from nvidia_gbx00.rs. -/
def BootOptionName.toStr : BootOptionName → String
  | BootOptionName.Http => "UEFI HTTPv4"
  | BootOptionName.Pxe => "UEFI PXEv4"
  | BootOptionName.Hdd => "HD("

/-- BootOptionMatchField from nvidia_gbx00.rs. -/
inductive BootOptionMatchField : Type
  | DisplayName
  | UefiDevicePath
deriving DecidableEq, Repr

/-- Modelled from the spec: BootOption (its model file is missing from the
slice); section 3 gives id, display_name, uefi_device_path, enabled. -/
structure BootOption where
  id : String
  display_name : String
  uefi_device_path : Option String
  enabled : Bool
deriving DecidableEq, Repr

/-- The decoded BMC responses that the boot-order workflow consumes: the
system id, the system's Boot.BootOrder, and the BootOption each member id
resolves to. -/
structure BootEnv where
  system_id : String
  boot_order : List String
  boot_option : String → BootOption

/-- The match test inside get_boot_options_ids_with_first: DisplayName
compares display_name.starts_with(name_str); UefiDevicePath matches
Some(x) if x.starts_with(name_str). -/
def optionMatches (mf : BootOptionMatchField) (name_str : String) (b : BootOption) : Bool :=
  match mf with
  | BootOptionMatchField.DisplayName => strStarts b.display_name name_str
  | BootOptionMatchField.UefiDevicePath =>
    match b.uefi_device_path with
    | some x => strStarts x name_str
    | none => false

/-- The loop of get_boot_options_ids_with_first: walk the boot order; a
matching option's id is inserted at position 0 of the accumulator
(ordered.insert(0, b.id)), a non-matching one is pushed at the end. -/
def gbOrderLoop (env : BootEnv) (mf : BootOptionMatchField) (name_str : String) :
    List String → List String → List String
  | [], ordered => ordered
  | member :: rest, ordered =>
    let b := env.boot_option member
    if optionMatches mf name_str b then
      gbOrderLoop env mf name_str rest (b.id :: ordered)
    else
      gbOrderLoop env mf name_str rest (ordered ++ [b.id])

/-- Bmc::get_boot_options_ids_with_first: fetches the system, walks its
BootOrder fetching each BootOption, and builds the reordered id list.
Returns the list together with the GET requests issued. -/
def get_boot_options_ids_with_first (env : BootEnv) (with_name : BootOptionName)
    (match_field : BootOptionMatchField) (with_name_str : Option String) :
    List String × List Request :=
  let name_str := with_name_str.getD with_name.toStr
  (gbOrderLoop env match_field name_str env.boot_order [],
    Request.getSystem :: env.boot_order.map Request.getBootOption)

/-- Bmc::change_boot_order: one PATCH of Boot.BootOrder to the system's
Settings URI. -/
def change_boot_order (env : BootEnv) (boot_array : List String) :
    Except RedfishError Unit × List Request :=
  (Except.ok (),
    [Request.patch ("Systems/" ++ env.system_id ++ "/Settings")
      (PatchBody.bootOrder boot_array)])

/-- Bmc::set_boot_order: reorder by DisplayName then change_boot_order. -/
def set_boot_order (env : BootEnv) (name : BootOptionName) :
    Except RedfishError Unit × List Request :=
  let fetched := get_boot_options_ids_with_first env name BootOptionMatchField.DisplayName none
  let patched := change_boot_order env fetched.1
  (patched.1, fetched.2 ++ patched.2)

/-- Bmc::boot_first: Pxe and UefiHttp reorder by DisplayName via
set_boot_order; HardDisk reorders by UefiDevicePath against the prefix
HD( and then calls change_boot_order. -/
def boot_first (env : BootEnv) (target : Boot) :
    Except RedfishError Unit × List Request :=
  match target with
  | Boot.Pxe => set_boot_order env BootOptionName.Pxe
  | Boot.HardDisk =>
    let fetched := get_boot_options_ids_with_first env BootOptionName.Hdd
      BootOptionMatchField.UefiDevicePath none
    let patched := change_boot_order env fetched.1
    (patched.1, fetched.2 ++ patched.2)
  | Boot.UefiHttp => set_boot_order env BootOptionName.Http

/-- The match field boot_first uses for each target. -/
def targetMatchField : Boot → BootOptionMatchField
  | Boot.Pxe => BootOptionMatchField.DisplayName
  | Boot.HardDisk => BootOptionMatchField.UefiDevicePath
  | Boot.UefiHttp => BootOptionMatchField.DisplayName

/-- The match string boot_first uses for each target. -/
def targetNameStr : Boot → String
  | Boot.Pxe => "UEFI PXEv4"
  | Boot.HardDisk => "HD("
  | Boot.UefiHttp => "UEFI HTTPv4"

/-- Whether a boot-order member matches the target, as boot_first tests it. -/
def memberMatches (env : BootEnv) (target : Boot) (member : String) : Bool :=
  optionMatches (targetMatchField target) (targetNameStr target) (env.boot_option member)

/-- The option id a boot-order member resolves to. -/
def idOf (env : BootEnv) (member : String) : String := (env.boot_option member).id

/-- Definition following the spec's words, for comparison with the source:
select the FIRST boot-order member whose match field starts with the target
string, move its id to position 0, and keep the relative order of all other
ids; none when no member matches. -/
def putFirstSpec (env : BootEnv) (target : Boot) : Option (List String) :=
  match env.boot_order.find? (memberMatches env target) with
  | some m =>
    some (idOf env m :: (env.boot_order.erase m).map (idOf env))
  | none => none

/-- BootSourceOverrideEnabled from src/model/boot.rs. -/
inductive BootSourceOverrideEnabled : Type
  | Once
  | Continuous
  | Disabled
deriving DecidableEq, Repr

/-- BootSourceOverrideTarget from src/model/boot.rs. -/
inductive BootSourceOverrideTarget : Type
  | None
  | Pxe
  | Floppy
  | Cd
  | Usb
  | Hdd
  | BiosSetup
  | Utilities
  | Diags
  | UefiShell
  | UefiTarget
  | SDCard
  | UefiHttp
  | RemoteDrive
  | UefiBootNext
  | Recovery
deriving DecidableEq, Repr

/-- TransferProtocolType from src/model/update_service.rs. -/
inductive TransferProtocolType : Type
  | FTP
  | SFTP
  | HTTP
  | HTTPS
  | SCP
  | TFTP
  | OEM
  | NFS
deriving DecidableEq, Repr

/-- Modelled from the spec: the Display rendering of BootSourceOverrideEnabled
(the impl lives outside the slice); the spec fixes the textual serialization
to the Redfish schema spelling, which is the variant name. -/
def BootSourceOverrideEnabled.display : BootSourceOverrideEnabled → String
  | BootSourceOverrideEnabled.Once => "Once"
  | BootSourceOverrideEnabled.Continuous => "Continuous"
  | BootSourceOverrideEnabled.Disabled => "Disabled"

/-- Modelled from the spec: the Display rendering of BootSourceOverrideTarget
(the impl lives outside the slice); the spec fixes the textual serialization
to the Redfish schema spelling, which is the variant name. -/
def BootSourceOverrideTarget.display : BootSourceOverrideTarget → String
  | BootSourceOverrideTarget.None => "None"
  | BootSourceOverrideTarget.Pxe => "Pxe"
  | BootSourceOverrideTarget.Floppy => "Floppy"
  | BootSourceOverrideTarget.Cd => "Cd"
  | BootSourceOverrideTarget.Usb => "Usb"
  | BootSourceOverrideTarget.Hdd => "Hdd"
  | BootSourceOverrideTarget.BiosSetup => "BiosSetup"
  | BootSourceOverrideTarget.Utilities => "Utilities"
  | BootSourceOverrideTarget.Diags => "Diags"
  | BootSourceOverrideTarget.UefiShell => "UefiShell"
  | BootSourceOverrideTarget.UefiTarget => "UefiTarget"
  | BootSourceOverrideTarget.SDCard => "SDCard"
  | BootSourceOverrideTarget.UefiHttp => "UefiHttp"
  | BootSourceOverrideTarget.RemoteDrive => "RemoteDrive"
  | BootSourceOverrideTarget.UefiBootNext => "UefiBootNext"
  | BootSourceOverrideTarget.Recovery => "Recovery"

/-- Bmc::set_boot_override: one PATCH of Boot.BootSourceOverrideEnabled and
Boot.BootSourceOverrideTarget.  The URL is written in the source as
format with a trailing space after Settings, reproduced here verbatim. -/
def set_boot_override (env : BootEnv) (override_target : BootSourceOverrideTarget)
    (override_enabled : BootSourceOverrideEnabled) :
    Except RedfishError Unit × List Request :=
  (Except.ok (),
    [Request.patch ("Systems/" ++ env.system_id ++ "/Settings ")
      (PatchBody.bootOverride override_enabled.display override_target.display)])

/-- Bmc::boot_once: maps the facade target to the Redfish override target and
issues set_boot_override with Once.  UefiHttp is passed through without any
AllowableValues check. -/
def boot_once (env : BootEnv) (target : Boot) :
    Except RedfishError Unit × List Request :=
  match target with
  | Boot.Pxe =>
    set_boot_override env BootSourceOverrideTarget.Pxe BootSourceOverrideEnabled.Once
  | Boot.HardDisk =>
    set_boot_override env BootSourceOverrideTarget.Hdd BootSourceOverrideEnabled.Once
  | Boot.UefiHttp =>
    set_boot_override env BootSourceOverrideTarget.UefiHttp BootSourceOverrideEnabled.Once

/-- The Redfish spelling boot_once sends for each facade target. -/
def targetOverrideStr : Boot → String
  | Boot.Pxe => "Pxe"
  | Boot.HardDisk => "Hdd"
  | Boot.UefiHttp => "UefiHttp"

/-- Modelled from the spec: EthernetInterface (its model file is missing from
the slice); only its identity matters to the claims, no field is consumed. -/
structure EthernetInterface where
  odata_id : String
deriving DecidableEq, Repr

/-- Bmc::get_system_ethernet_interfaces on GB200: a constant NotSupported
error and no request. -/
def get_system_ethernet_interfaces :
    Except RedfishError (List String) × List Request :=
  (Except.error (RedfishError.NotSupported "GB200 doesn't have Systems EthernetInterface"), [])

/-- Bmc::get_system_ethernet_interface on GB200: a constant NotSupported
error and no request, whatever the id argument. -/
def get_system_ethernet_interface (_id : String) :
    Except RedfishError EthernetInterface × List Request :=
  (Except.error (RedfishError.NotSupported "GB200 doesn't have Systems EthernetInterface"), [])

/-- The meaning of a derived serde deserializer for a fieldless enum: the
incoming string is matched against the variant-name table; any other string
is a parse error, modelled as none (there is no fallback attribute on these
enums, so no default variant exists). -/
def enumFromString {α : Type} (pairs : List (String × α)) (s : String) : Option α :=
  (pairs.find? fun p => p.1 == s).map Prod.snd

/-- Variant-name table of BootSourceOverrideEnabled from src/model/boot.rs. -/
def enabledPairs : List (String × BootSourceOverrideEnabled) :=
  [("Once", BootSourceOverrideEnabled.Once),
   ("Continuous", BootSourceOverrideEnabled.Continuous),
   ("Disabled", BootSourceOverrideEnabled.Disabled)]

/-- Variant-name table of BootSourceOverrideTarget from src/model/boot.rs. -/
def targetPairs : List (String × BootSourceOverrideTarget) :=
  [("None", BootSourceOverrideTarget.None),
   ("Pxe", BootSourceOverrideTarget.Pxe),
   ("Floppy", BootSourceOverrideTarget.Floppy),
   ("Cd", BootSourceOverrideTarget.Cd),
   ("Usb", BootSourceOverrideTarget.Usb),
   ("Hdd", BootSourceOverrideTarget.Hdd),
   ("BiosSetup", BootSourceOverrideTarget.BiosSetup),
   ("Utilities", BootSourceOverrideTarget.Utilities),
   ("Diags", BootSourceOverrideTarget.Diags),
   ("UefiShell", BootSourceOverrideTarget.UefiShell),
   ("UefiTarget", BootSourceOverrideTarget.UefiTarget),
   ("SDCard", BootSourceOverrideTarget.SDCard),
   ("UefiHttp", BootSourceOverrideTarget.UefiHttp),
   ("RemoteDrive", BootSourceOverrideTarget.RemoteDrive),
   ("UefiBootNext", BootSourceOverrideTarget.UefiBootNext),
   ("Recovery", BootSourceOverrideTarget.Recovery)]

/-- Variant-name table of TransferProtocolType from
src/model/update_service.rs. -/
def protocolPairs : List (String × TransferProtocolType) :=
  [("FTP", TransferProtocolType.FTP),
   ("SFTP", TransferProtocolType.SFTP),
   ("HTTP", TransferProtocolType.HTTP),
   ("HTTPS", TransferProtocolType.HTTPS),
   ("SCP", TransferProtocolType.SCP),
   ("TFTP", TransferProtocolType.TFTP),
   ("OEM", TransferProtocolType.OEM),
   ("NFS", TransferProtocolType.NFS)]

/-- The textual values accepted for BootSourceOverrideEnabled. -/
def enabledStrings : List String := enabledPairs.map Prod.fst

/-- The textual values accepted for BootSourceOverrideTarget. -/
def targetStrings : List String := targetPairs.map Prod.fst

/-- The textual values accepted for TransferProtocolType. -/
def protocolStrings : List String := protocolPairs.map Prod.fst

/-- The derived serde deserializer for BootSourceOverrideEnabled. -/
def BootSourceOverrideEnabled.fromString (s : String) : Option BootSourceOverrideEnabled :=
  enumFromString enabledPairs s

/-- The derived serde deserializer for BootSourceOverrideTarget. -/
def BootSourceOverrideTarget.fromString (s : String) : Option BootSourceOverrideTarget :=
  enumFromString targetPairs s

/-- The derived serde deserializer for TransferProtocolType. -/
def TransferProtocolType.fromString (s : String) : Option TransferProtocolType :=
  enumFromString protocolPairs s

/-- StatusInternal from src/lib.rs. -/
inductive StatusInternal : Type
  | Enabled
  | Partial
  | Disabled
deriving DecidableEq, Repr, BEq

/-- Status from src/lib.rs: an internal state plus a vendor message. -/
structure Status where
  status : StatusInternal
  message : String
deriving DecidableEq, Repr

/-- Status::is_fully_enabled from src/lib.rs. -/
def Status.is_fully_enabled (s : Status) : Bool :=
  s.status == StatusInternal.Enabled

/-- Status::is_fully_disabled from src/lib.rs. -/
def Status.is_fully_disabled (s : Status) : Bool :=
  s.status == StatusInternal.Disabled

/-- Status::is_partially_enabled from src/lib.rs. -/
def Status.is_partially_enabled (s : Status) : Bool :=
  s.status == StatusInternal.Partial

/-- Characterization of the reorder loop: every matching member's id is
prepended, every non-matching member's id is appended, so the result is the
reversed list of matching ids, then the accumulator, then the non-matching
ids in order. -/
theorem gbOrderLoop_eq (env : BootEnv) (mf : BootOptionMatchField) (ns : String) :
    ∀ (l acc : List String),
      gbOrderLoop env mf ns l acc =
        ((l.filter fun m => optionMatches mf ns (env.boot_option m)).map (idOf env)).reverse
          ++ acc
          ++ (l.filter fun m => !optionMatches mf ns (env.boot_option m)).map (idOf env) := by
  intro l
  induction l with
  | nil => intro acc; simp [gbOrderLoop]
  | cons m rest ih =>
    intro acc
    by_cases h : optionMatches mf ns (env.boot_option m)
    · simp [gbOrderLoop, h, ih, idOf, List.filter_cons]
    · simp [gbOrderLoop, h, ih, idOf, List.filter_cons]

/-- The concrete system used to refute the first-match-wins reading: two
boot options, both of whose DisplayNames start with the UEFI HTTPv4 target. -/
def envC1 : BootEnv where
  system_id := "system"
  boot_order := ["Boot0001", "Boot0002"]
  boot_option := fun m =>
    if m = "Boot0001" then
      { id := "Boot0001", display_name := "UEFI HTTPv4 a", uefi_device_path := none, enabled := true }
    else
      { id := "Boot0002", display_name := "UEFI HTTPv4 b", uefi_device_path := none, enabled := true }

/-- Claim C1 counterexample: with two matching options the code PATCHes the
LAST match first (each match is inserted at position 0), while the claim's
first-match-to-front rule would keep the original order here. -/
theorem boot_first_counterexample :
    patchedOrders (boot_first envC1 Boot.UefiHttp).2 = [["Boot0002", "Boot0001"]]
      ∧ putFirstSpec envC1 Boot.UefiHttp = some ["Boot0001", "Boot0002"]
      ∧ (["Boot0002", "Boot0001"] : List String) ≠ ["Boot0001", "Boot0002"] := by
  decide

/-- Claim C1 (amended): boot_first fetches the system and then each
BootOption of the BootOrder in order, and PATCHes to the system's Settings
URI the order in which every matching option id has been moved to the front
(so the last match ends at position 0 and matches appear in reverse order of
appearance), with the relative order of all non-matching ids preserved; the
match is a case-sensitive starts_with on DisplayName for Pxe/UefiHttp and on
UefiDevicePath for HardDisk.  With exactly one match this is the claimed
behavior. -/
theorem boot_first_behavior (env : BootEnv) (target : Boot) :
    boot_first env target =
      (Except.ok (),
        Request.getSystem :: env.boot_order.map Request.getBootOption
          ++ [Request.patch ("Systems/" ++ env.system_id ++ "/Settings")
              (PatchBody.bootOrder
                (((env.boot_order.filter
                      fun m => memberMatches env target m).map (idOf env)).reverse
                  ++ (env.boot_order.filter
                        fun m => !memberMatches env target m).map (idOf env)))]) := by
  cases target <;>
    simp [boot_first, set_boot_order, get_boot_options_ids_with_first, change_boot_order,
      gbOrderLoop_eq, memberMatches, targetMatchField, targetNameStr, BootOptionName.toStr]

/-- The concrete system used for the missing-target scenario: one boot
option, named ubuntu, which matches none of the targets. -/
def envC2 : BootEnv where
  system_id := "system"
  boot_order := ["Boot0001"]
  boot_option := fun _ =>
    { id := "Boot0001", display_name := "ubuntu",
      uefi_device_path := some "PciRoot(0x0)", enabled := true }

/-- Claim C2 (code-bug evidence): when no BootOption matches the UefiHttp
target, boot_first returns ok and still PATCHes the unchanged boot order to
the Settings URI, instead of failing with NotFound as both the spec (S5) and
the function's own doc comment require. -/
theorem boot_first_no_match_patches_anyway :
    boot_first envC2 Boot.UefiHttp =
      (Except.ok (),
        [Request.getSystem, Request.getBootOption "Boot0001",
          Request.patch "Systems/system/Settings" (PatchBody.bootOrder ["Boot0001"])]) := by
  rfl

/-- Claim C5 (amended): boot_once issues exactly one PATCH whose body sets
Boot.BootSourceOverrideEnabled to Once and Boot.BootSourceOverrideTarget to
the Redfish spelling of the target, with UefiHttp sent as-is without any
AllowableValues pre-validation; the URL however is the Settings URI written
in the source with a trailing space, not Systems/(id). -/
theorem boot_once_behavior (env : BootEnv) (target : Boot) :
    boot_once env target =
      (Except.ok (),
        [Request.patch ("Systems/" ++ env.system_id ++ "/Settings ")
          (PatchBody.bootOverride "Once" (targetOverrideStr target))]) := by
  cases target <;> rfl

/-- A minimal environment for the boot_once counterexample. -/
def envC5 : BootEnv where
  system_id := "system"
  boot_order := []
  boot_option := fun _ =>
    { id := "", display_name := "", uefi_device_path := none, enabled := false }

/-- Claim C5 counterexample: the single PATCH of boot_once(Pxe) goes to
Systems/system/Settings followed by a space, not to Systems/system as the
claim states. -/
theorem boot_once_counterexample :
    (boot_once envC5 Boot.Pxe).2.filterMap patchUrl = ["Systems/system/Settings "]
      ∧ ("Systems/system/Settings " : String) ≠ "Systems/system" := by
  decide

/-- Claim C7: on GB200 both Systems EthernetInterface accessors return the
NotSupported error with the documented message and issue no HTTP request. -/
theorem gb200_ethernet_not_supported (id : String) :
    get_system_ethernet_interface id =
        (Except.error (RedfishError.NotSupported "GB200 doesn't have Systems EthernetInterface"), [])
      ∧ get_system_ethernet_interfaces =
        (Except.error (RedfishError.NotSupported "GB200 doesn't have Systems EthernetInterface"), []) :=
  ⟨rfl, rfl⟩

/-- A string absent from a variant-name table is rejected by the derived
deserializer. -/
theorem enumFromString_eq_none {α : Type} (pairs : List (String × α)) (s : String)
    (h : s ∉ pairs.map Prod.fst) : enumFromString pairs s = none := by
  rw [enumFromString]
  have hf : (pairs.find? fun p => p.1 == s) = none := by
    simp only [List.find?_eq_none, beq_iff_eq]
    intro x hx hxs
    exact h (hxs ▸ List.mem_map_of_mem Prod.fst hx)
  rw [hf]
  rfl

/-- Claim C9: a string that is none of the defined textual values of
BootSourceOverrideTarget, BootSourceOverrideEnabled or TransferProtocolType
is rejected by the deserializer (parse error, not a default variant). -/
theorem unknown_enum_value_rejected (s : String)
    (h1 : s ∉ targetStrings) (h2 : s ∉ enabledStrings) (h3 : s ∉ protocolStrings) :
    BootSourceOverrideTarget.fromString s = none
      ∧ BootSourceOverrideEnabled.fromString s = none
      ∧ TransferProtocolType.fromString s = none :=
  ⟨enumFromString_eq_none targetPairs s h1,
   enumFromString_eq_none enabledPairs s h2,
   enumFromString_eq_none protocolPairs s h3⟩

/-- Witness for claim C9 at the concrete unknown value Bogus. -/
theorem unknown_enum_value_rejected_witness :
    BootSourceOverrideTarget.fromString "Bogus" = none
      ∧ BootSourceOverrideEnabled.fromString "Bogus" = none
      ∧ TransferProtocolType.fromString "Bogus" = none :=
  unknown_enum_value_rejected "Bogus" (by decide) (by decide) (by decide)

/-- Claim C10: for every Status exactly one of is_fully_enabled,
is_fully_disabled, is_partially_enabled holds; the three predicates are
mutually exclusive and exhaustive over Enabled, Partial, Disabled. -/
theorem status_predicates_trichotomy (st : Status) :
    ((st.is_fully_enabled && !st.is_fully_disabled && !st.is_partially_enabled)
      || (!st.is_fully_enabled && st.is_fully_disabled && !st.is_partially_enabled)
      || (!st.is_fully_enabled && !st.is_fully_disabled && st.is_partially_enabled)) = true := by
  cases st with
  | mk s msg => cases s <;> rfl

/-- UpdateService from src/model/update_service.rs; serde default applies,
so an absent MultipartHttpPushUri decodes to the empty string. -/
structure UpdateService where
  http_push_uri : String
  max_image_size_bytes : Int
  multipart_http_push_uri : String
deriving DecidableEq, Repr

/-- Modelled from the spec: Task (its model file is missing from the slice);
only the id field is consumed by update_firmware_multipart. -/
structure Task where
  id : String
deriving DecidableEq, Repr

/-- The decoded BMC responses and side conditions that
update_firmware_multipart consumes: whether the local firmware file opens,
the decoded UpdateService, the raw body returned by the multipart POST, and
the serde_json parse of that body as a Task (none for a parse error). -/
structure FwEnv where
  file_ok : Bool
  update_service : UpdateService
  response_body : String
  parseTask : String → Option Task

/-- Bmc::update_firmware_multipart: open the file (FileError on failure),
GET UpdateService, refuse with NotSupported when multipart_http_push_uri is
empty, otherwise POST the multipart request with parameters "\x7b\x7d" and
parse the response body as a Task, propagating a parse failure as
JsonDeserializeError carrying the push URI and the body. -/
def update_firmware_multipart (env : FwEnv) (filename : String) :
    Except RedfishError String × List Request :=
  if !env.file_ok then
    (Except.error (RedfishError.FileError "Could not open file"), [])
  else
    let us := env.update_service
    if us.multipart_http_push_uri = "" then
      (Except.error (RedfishError.NotSupported "Host BMC does not support HTTP multipart push"),
        [Request.getUpdateService])
    else
      let reqs := [Request.getUpdateService,
        Request.multipart us.multipart_http_push_uri filename "\x7b\x7d"]
      match env.parseTask env.response_body with
      | some task => (Except.ok task.id, reqs)
      | none =>
        (Except.error
          (RedfishError.JsonDeserializeError us.multipart_http_push_uri env.response_body),
          reqs)

/-- Whether a request-log entry is a multipart upload. -/
def isMultipart : Request → Bool
  | Request.multipart _ _ _ => true
  | _ => false

/-- Claim C6: when the firmware file opens, update_firmware_multipart with
an empty (hence also absent, via serde default) MultipartHttpPushUri returns
NotSupported and uploads nothing; with a non-empty URI it issues exactly one
multipart POST to that URI, returns the parsed Task id on success, and
returns JsonDeserializeError carrying the push URI and the offending body on
a parse failure. -/
theorem update_firmware_multipart_behavior (env : FwEnv) (filename : String)
    (hfile : env.file_ok = true) :
    (env.update_service.multipart_http_push_uri = "" →
      update_firmware_multipart env filename =
        (Except.error (RedfishError.NotSupported "Host BMC does not support HTTP multipart push"),
          [Request.getUpdateService])
      ∧ (update_firmware_multipart env filename).2.all (fun r => !isMultipart r) = true)
    ∧ (env.update_service.multipart_http_push_uri ≠ "" →
      (update_firmware_multipart env filename).2 =
        [Request.getUpdateService,
          Request.multipart env.update_service.multipart_http_push_uri filename "\x7b\x7d"]
      ∧ (∀ t, env.parseTask env.response_body = some t →
          (update_firmware_multipart env filename).1 = Except.ok t.id)
      ∧ (env.parseTask env.response_body = none →
          (update_firmware_multipart env filename).1 =
            Except.error (RedfishError.JsonDeserializeError
              env.update_service.multipart_http_push_uri env.response_body))) := by
  constructor
  · intro hempty
    rw [update_firmware_multipart]
    simp [hfile, hempty, isMultipart]
  · intro hne
    rw [update_firmware_multipart]
    simp only [hfile, Bool.not_true, Bool.false_eq_true, if_false, if_neg hne]
    refine ⟨?_, ?_, ?_⟩
    · cases h : env.parseTask env.response_body <;> simp [h]
    · intro t ht
      simp [ht]
    · intro hnone
      simp [hnone]

/-- Concrete environment for the C6 witness: the push URI is present and the
response body does not parse as a Task. -/
def envC6 : FwEnv where
  file_ok := true
  update_service :=
    { http_push_uri := "", max_image_size_bytes := 0,
      multipart_http_push_uri := "UpdateService/update-multipart" }
  response_body := "nonsense"
  parseTask := fun _ => none

/-- Witness for claim C6 at envC6: the multipart POST goes to the push URI
and the parse failure surfaces as JsonDeserializeError with that URI and the
body. -/
theorem update_firmware_multipart_behavior_witness :
    (update_firmware_multipart envC6 "fw.bin").2 =
      [Request.getUpdateService,
        Request.multipart "UpdateService/update-multipart" "fw.bin" "\x7b\x7d"]
    ∧ (update_firmware_multipart envC6 "fw.bin").1 =
      Except.error
        (RedfishError.JsonDeserializeError "UpdateService/update-multipart" "nonsense") := by
  have h := (update_firmware_multipart_behavior envC6 "fw.bin" rfl).2 (by decide)
  exact ⟨h.1, h.2.2 rfl⟩

/-- A member entry of a Redfish collection: just its odata_id, which the
backend relativizes and follows. -/
structure ODataRef where
  odata_id : String
deriving DecidableEq, Repr

/-- Modelled from the spec: Sensor (its model file is missing from the
slice); the GB200 code consumes odata_id, reading and reading_range_max.
Readings are only copied, never computed with, so their numeric type is
modelled as Int. -/
structure Sensor where
  odata_id : String
  reading : Option Int
  reading_range_max : Option Int
deriving DecidableEq, Repr

/-- Modelled from the spec: PowerSupply (its model file is missing from the
slice); fields are the ones the GB200 power assembly writes. -/
structure PowerSupply where
  last_power_output_watts : Option Int
  power_output_watts : Option Int
  power_capacity_watts : Option Int
  power_output_amps : Option Int
deriving DecidableEq, Repr

/-- Modelled from the spec: a Voltage record, produced by Voltages::from on
a fetched Sensor. -/
structure Voltages where
  sensor : Sensor
deriving DecidableEq, Repr

/-- Modelled from the spec: the Power composite returned by
get_power_metrics, restricted to the fields the GB200 code fills. -/
structure Power where
  id : String
  name : String
  power_supplies : Option (List PowerSupply)
  voltages : Option (List Voltages)
deriving DecidableEq, Repr

/-- The decoded BMC responses the GB200 power assembly consumes: the
Chassis/PDB_0 body decoded as a PowerSupply, the chassis list, whether each
chassis has a Sensors subtree, the member refs of each Sensors collection,
and the full Sensor behind each relativized URL. -/
structure PmEnv where
  pdb : PowerSupply
  chassis_all : List String
  has_sensors : String → Bool
  sensors_members : String → List ODataRef
  sensor : String → Sensor

/-- The two sequential if-blocks of the PDB_0 branch that mutate hsc0: an
HSC_0_Pwr sensor overwrites last/output watts with its reading and capacity
with its reading_range_max; an HSC_0_Cur sensor overwrites output amps. -/
def pmHsc0 (env : PmEnv) (oid : String) (h : PowerSupply) : PowerSupply :=
  let h :=
    if strContains oid "HSC_0_Pwr" then
      let t := env.sensor (relUrl oid)
      { h with last_power_output_watts := t.reading, power_output_watts := t.reading,
               power_capacity_watts := t.reading_range_max }
    else h
  if strContains oid "HSC_0_Cur" then
    { h with power_output_amps := (env.sensor (relUrl oid)).reading }
  else h

/-- The two sequential if-blocks of the PDB_0 branch that mutate hsc1, on
HSC_1_Pwr and HSC_1_Cur. -/
def pmHsc1 (env : PmEnv) (oid : String) (h : PowerSupply) : PowerSupply :=
  let h :=
    if strContains oid "HSC_1_Pwr" then
      let t := env.sensor (relUrl oid)
      { h with last_power_output_watts := t.reading, power_output_watts := t.reading,
               power_capacity_watts := t.reading_range_max }
    else h
  if strContains oid "HSC_1_Cur" then
    { h with power_output_amps := (env.sensor (relUrl oid)).reading }
  else h

/-- One iteration of the sensor loop of get_power_metrics: inside PDB_0 the
HSC blocks update the two power supplies, and independently any sensor whose
odata_id contains Volt is fetched and appended to the voltages. -/
def pmSensorStep (env : PmEnv) (chassis_id : String)
    (st : PowerSupply × PowerSupply × List Voltages) (sref : ODataRef) :
    PowerSupply × PowerSupply × List Voltages :=
  let oid := sref.odata_id
  let h0 := if chassis_id = "PDB_0" then pmHsc0 env oid st.1 else st.1
  let h1 := if chassis_id = "PDB_0" then pmHsc1 env oid st.2.1 else st.2.1
  let vs :=
    if strContains oid "Volt" then st.2.2 ++ [Voltages.mk (env.sensor (relUrl oid))]
    else st.2.2
  (h0, h1, vs)

/-- One iteration of the chassis loop of get_power_metrics: a chassis
without a Sensors subtree is skipped; otherwise its Sensors members are
walked. -/
def pmChassisStep (env : PmEnv) (st : PowerSupply × PowerSupply × List Voltages)
    (chassis_id : String) : PowerSupply × PowerSupply × List Voltages :=
  if env.has_sensors chassis_id then
    (env.sensors_members chassis_id).foldl (pmSensorStep env chassis_id) st
  else st

/-- Bmc::get_power_metrics: hsc0 and hsc1 start as clones of the decoded
Chassis/PDB_0 body, the chassis walk updates them and collects voltage
records, and the result is the Power composite with exactly those two
power supplies. -/
def get_power_metrics (env : PmEnv) : Power :=
  let st := env.chassis_all.foldl (pmChassisStep env) (env.pdb, env.pdb, ([] : List Voltages))
  { id := "Power", name := "Power",
    power_supplies := some [st.1, st.2.1], voltages := some st.2.2 }

/-- The number of Volt sensors a chassis contributes. -/
def voltCount (env : PmEnv) (chassis_id : String) : Nat :=
  ((env.sensors_members chassis_id).filter fun r => strContains r.odata_id "Volt").length

/-- A fold whose step leaves a projection unchanged on non-matching elements
preserves the projection when no element matches. -/
theorem foldl_proj_const {α β γ : Type} (f : α → β → α) (proj : α → γ) (pred : β → Bool)
    (hskip : ∀ h r, pred r = false → proj (f h r) = proj h) :
    ∀ (l : List β) (h0 : α), l.filter pred = [] → proj (l.foldl f h0) = proj h0 := by
  intro l
  induction l with
  | nil => intro h0 _; rfl
  | cons r rest ih =>
    intro h0 hf
    rw [List.filter_cons] at hf
    by_cases hr : pred r
    · simp [hr] at hf
    · simp only [hr, if_neg] at hf
      rw [List.foldl_cons, ih (f h0 r) (by simpa using hf), hskip h0 r (by simpa using hr)]

/-- A fold whose step writes val r into a projection on matching elements
and leaves it unchanged otherwise computes the value of the unique match. -/
theorem foldl_proj_last {α β γ : Type} (f : α → β → α) (proj : α → γ) (pred : β → Bool)
    (val : β → γ)
    (hset : ∀ h r, pred r = true → proj (f h r) = val r)
    (hskip : ∀ h r, pred r = false → proj (f h r) = proj h) :
    ∀ (l : List β) (h0 : α) (p : β), l.filter pred = [p] → proj (l.foldl f h0) = val p := by
  intro l
  induction l with
  | nil => intro h0 p hf; simp at hf
  | cons r rest ih =>
    intro h0 p hf
    rw [List.filter_cons] at hf
    by_cases hr : pred r
    · simp only [hr, if_pos] at hf
      obtain ⟨hrp, hrest⟩ := List.cons_eq_cons.mp hf
      rw [List.foldl_cons,
        foldl_proj_const f proj pred hskip rest (f h0 r) hrest, hset h0 r hr, hrp]
    · simp only [hr, Bool.false_eq_true, if_neg, not_false_iff] at hf
      rw [List.foldl_cons, ih (f h0 r) p (by simpa using hf)]

/-- Inside PDB_0 the first component of the sensor-loop state evolves by
pmHsc0 alone. -/
theorem pm_inner_fst_pdb (env : PmEnv) :
    ∀ (l : List ODataRef) (st : PowerSupply × PowerSupply × List Voltages),
      (l.foldl (pmSensorStep env "PDB_0") st).1 =
        l.foldl (fun h r => pmHsc0 env r.odata_id h) st.1 := by
  intro l
  induction l with
  | nil => intro st; rfl
  | cons r rest ih =>
    intro st
    rw [List.foldl_cons, List.foldl_cons, ih]
    have : (pmSensorStep env "PDB_0" st r).1 = pmHsc0 env r.odata_id st.1 := by
      simp [pmSensorStep]
    rw [this]

/-- Inside PDB_0 the second component of the sensor-loop state evolves by
pmHsc1 alone. -/
theorem pm_inner_snd_pdb (env : PmEnv) :
    ∀ (l : List ODataRef) (st : PowerSupply × PowerSupply × List Voltages),
      (l.foldl (pmSensorStep env "PDB_0") st).2.1 =
        l.foldl (fun h r => pmHsc1 env r.odata_id h) st.2.1 := by
  intro l
  induction l with
  | nil => intro st; rfl
  | cons r rest ih =>
    intro st
    rw [List.foldl_cons, List.foldl_cons, ih]
    have : (pmSensorStep env "PDB_0" st r).2.1 = pmHsc1 env r.odata_id st.2.1 := by
      simp [pmSensorStep]
    rw [this]

/-- Outside PDB_0 the sensor loop leaves both power supplies unchanged. -/
theorem pm_inner_hsc_const (env : PmEnv) (cid : String) (hne : cid ≠ "PDB_0") :
    ∀ (l : List ODataRef) (st : PowerSupply × PowerSupply × List Voltages),
      (l.foldl (pmSensorStep env cid) st).1 = st.1
        ∧ (l.foldl (pmSensorStep env cid) st).2.1 = st.2.1 := by
  intro l
  induction l with
  | nil => intro st; exact ⟨rfl, rfl⟩
  | cons r rest ih =>
    intro st
    rw [List.foldl_cons]
    obtain ⟨ih1, ih2⟩ := ih (pmSensorStep env cid st r)
    have h1 : (pmSensorStep env cid st r).1 = st.1 := by simp [pmSensorStep, hne]
    have h2 : (pmSensorStep env cid st r).2.1 = st.2.1 := by simp [pmSensorStep, hne]
    exact ⟨ih1.trans h1, ih2.trans h2⟩

/-- The sensor loop appends exactly the Volt sensors of the walked members
to the voltages component. -/
theorem pm_inner_volt (env : PmEnv) (cid : String) :
    ∀ (l : List ODataRef) (st : PowerSupply × PowerSupply × List Voltages),
      (l.foldl (pmSensorStep env cid) st).2.2 =
        st.2.2 ++ (l.filter fun r => strContains r.odata_id "Volt").map
          (fun r => Voltages.mk (env.sensor (relUrl r.odata_id))) := by
  intro l
  induction l with
  | nil => intro st; simp
  | cons r rest ih =>
    intro st
    rw [List.foldl_cons, List.filter_cons, ih]
    by_cases hr : strContains r.odata_id "Volt"
    · have : (pmSensorStep env cid st r).2.2 =
          st.2.2 ++ [Voltages.mk (env.sensor (relUrl r.odata_id))] := by
        simp [pmSensorStep, hr]
      rw [this]
      simp [hr]
    · have : (pmSensorStep env cid st r).2.2 = st.2.2 := by
        simp [pmSensorStep, hr]
      rw [this]
      simp [hr]

/-- The chassis loop leaves both power supplies unchanged over any list of
chassis not containing PDB_0. -/
theorem pm_outer_hsc_const (env : PmEnv) :
    ∀ (l : List String) (st : PowerSupply × PowerSupply × List Voltages), "PDB_0" ∉ l →
      (l.foldl (pmChassisStep env) st).1 = st.1
        ∧ (l.foldl (pmChassisStep env) st).2.1 = st.2.1 := by
  intro l
  induction l with
  | nil => intro st _; exact ⟨rfl, rfl⟩
  | cons c rest ih =>
    intro st hmem
    have hc : c ≠ "PDB_0" := fun h => hmem (h ▸ List.mem_cons_self c rest)
    have hrest : "PDB_0" ∉ rest := fun h => hmem (List.mem_cons_of_mem c h)
    rw [List.foldl_cons]
    have hstep : (pmChassisStep env st c).1 = st.1 ∧ (pmChassisStep env st c).2.1 = st.2.1 := by
      rw [pmChassisStep]
      by_cases hs : env.has_sensors c
      · simp only [hs, if_pos]
        exact pm_inner_hsc_const env c hc (env.sensors_members c) st
      · simp [hs]
    obtain ⟨h1, h2⟩ := ih (pmChassisStep env st c) hrest
    exact ⟨h1.trans hstep.1, h2.trans hstep.2⟩

/-- The chassis loop grows the voltage list by voltCount for every chassis
with a Sensors subtree and by nothing for the others. -/
theorem pm_outer_volt_len (env : PmEnv) :
    ∀ (l : List String) (st : PowerSupply × PowerSupply × List Voltages),
      ((l.foldl (pmChassisStep env) st).2.2).length =
        st.2.2.length +
          (l.map fun c => if env.has_sensors c then voltCount env c else 0).sum := by
  intro l
  induction l with
  | nil => intro st; simp
  | cons c rest ih =>
    intro st
    rw [List.foldl_cons, List.map_cons, List.sum_cons, ih]
    have hstep : (pmChassisStep env st c).2.2.length =
        st.2.2.length + (if env.has_sensors c then voltCount env c else 0) := by
      rw [pmChassisStep]
      by_cases hs : env.has_sensors c
      · simp only [hs, if_pos]
        rw [pm_inner_volt env c (env.sensors_members c) st]
        simp [voltCount]
      · simp [hs]
    rw [hstep]
    omega

/-- Summing a guarded map equals summing over the filtered list. -/
theorem sum_map_ite {α : Type} (p : α → Bool) (f : α → Nat) :
    ∀ l : List α, (l.map fun c => if p c then f c else 0).sum = ((l.filter p).map f).sum := by
  intro l
  induction l with
  | nil => rfl
  | cons c rest ih =>
    rw [List.map_cons, List.sum_cons, List.filter_cons]
    by_cases hc : p c
    · simp [hc, ih]
    · simp [hc, ih]

/-- Claim C3: whenever the chassis collection lists PDB_0 (once, the
collection being duplicate-free) and PDB_0 has a Sensors subtree whose
members contain exactly one sensor matching each of HSC_0_Pwr, HSC_0_Cur,
HSC_1_Pwr and HSC_1_Cur, get_power_metrics returns exactly two PowerSupply
records whose watts/capacity come from the readings of the matching Pwr
sensors and whose amps come from the matching Cur sensors, and one Voltage
entry per Volt sensor over every chassis that has a Sensors subtree. -/
theorem get_power_metrics_behavior (env : PmEnv)
    (hnd : env.chassis_all.Nodup)
    (hmem : "PDB_0" ∈ env.chassis_all)
    (hsen : env.has_sensors "PDB_0" = true)
    (p0 c0 p1 c1 : ODataRef)
    (hp0 : (env.sensors_members "PDB_0").filter
      (fun r => strContains r.odata_id "HSC_0_Pwr") = [p0])
    (hc0 : (env.sensors_members "PDB_0").filter
      (fun r => strContains r.odata_id "HSC_0_Cur") = [c0])
    (hp1 : (env.sensors_members "PDB_0").filter
      (fun r => strContains r.odata_id "HSC_1_Pwr") = [p1])
    (hc1 : (env.sensors_members "PDB_0").filter
      (fun r => strContains r.odata_id "HSC_1_Cur") = [c1]) :
    ∃ h0 h1 volts,
      (get_power_metrics env).power_supplies = some [h0, h1]
      ∧ (get_power_metrics env).voltages = some volts
      ∧ h0.power_output_watts = (env.sensor (relUrl p0.odata_id)).reading
      ∧ h0.power_capacity_watts = (env.sensor (relUrl p0.odata_id)).reading_range_max
      ∧ h0.power_output_amps = (env.sensor (relUrl c0.odata_id)).reading
      ∧ h1.power_output_watts = (env.sensor (relUrl p1.odata_id)).reading
      ∧ h1.power_capacity_watts = (env.sensor (relUrl p1.odata_id)).reading_range_max
      ∧ h1.power_output_amps = (env.sensor (relUrl c1.odata_id)).reading
      ∧ volts.length = ((env.chassis_all.filter env.has_sensors).map (voltCount env)).sum := by
  obtain ⟨pre, post, hsplit⟩ := List.append_of_mem hmem
  have hnodup2 : "PDB_0" ∉ pre ∧ "PDB_0" ∉ post := by
    rw [hsplit] at hnd
    have := (List.nodup_middle.mp hnd)
    rw [List.nodup_cons, List.mem_append] at this
    exact ⟨fun h => this.1 (Or.inl h), fun h => this.1 (Or.inr h)⟩
  set st0 : PowerSupply × PowerSupply × List Voltages := (env.pdb, env.pdb, []) with hst0
  set stPre := pre.foldl (pmChassisStep env) st0 with hstPre
  set stMid := pmChassisStep env stPre "PDB_0" with hstMid
  set stEnd := post.foldl (pmChassisStep env) stMid with hstEnd
  have hfold : env.chassis_all.foldl (pmChassisStep env) st0 = stEnd := by
    rw [hsplit, List.foldl_append, List.foldl_cons]
  obtain ⟨hpre1, hpre2⟩ := pm_outer_hsc_const env pre st0 hnodup2.1
  obtain ⟨hpost1, hpost2⟩ := pm_outer_hsc_const env post stMid hnodup2.2
  have hmid : stMid = (env.sensors_members "PDB_0").foldl (pmSensorStep env "PDB_0") stPre := by
    rw [hstMid, pmChassisStep, hsen]
    simp
  have hfst : stEnd.1 = (env.sensors_members "PDB_0").foldl
      (fun h r => pmHsc0 env r.odata_id h) env.pdb := by
    rw [hstEnd, hpost1, hmid, pm_inner_fst_pdb, hstPre, hpre1]
  have hsnd : stEnd.2.1 = (env.sensors_members "PDB_0").foldl
      (fun h r => pmHsc1 env r.odata_id h) env.pdb := by
    rw [hstEnd, hpost2, hmid, pm_inner_snd_pdb, hstPre, hpre2]
  refine ⟨stEnd.1, stEnd.2.1, stEnd.2.2, ?_, ?_, ?_, ?_, ?_, ?_, ?_, ?_, ?_⟩
  · rw [get_power_metrics, hfold]
  · rw [get_power_metrics, hfold]
  · rw [hfst]
    refine foldl_proj_last _ PowerSupply.power_output_watts
      (fun r => strContains r.odata_id "HSC_0_Pwr")
      (fun r => (env.sensor (relUrl r.odata_id)).reading) ?_ ?_ _ env.pdb p0 hp0
    · intro h r hr
      rw [pmHsc0]
      simp only [hr, if_pos]
      by_cases hcur : strContains r.odata_id "HSC_0_Cur" <;> simp [hcur]
    · intro h r hr
      rw [pmHsc0]
      simp only [hr, Bool.false_eq_true, if_neg, not_false_iff]
      by_cases hcur : strContains r.odata_id "HSC_0_Cur" <;> simp [hcur]
  · rw [hfst]
    refine foldl_proj_last _ PowerSupply.power_capacity_watts
      (fun r => strContains r.odata_id "HSC_0_Pwr")
      (fun r => (env.sensor (relUrl r.odata_id)).reading_range_max) ?_ ?_ _ env.pdb p0 hp0
    · intro h r hr
      rw [pmHsc0]
      simp only [hr, if_pos]
      by_cases hcur : strContains r.odata_id "HSC_0_Cur" <;> simp [hcur]
    · intro h r hr
      rw [pmHsc0]
      simp only [hr, Bool.false_eq_true, if_neg, not_false_iff]
      by_cases hcur : strContains r.odata_id "HSC_0_Cur" <;> simp [hcur]
  · rw [hfst]
    refine foldl_proj_last _ PowerSupply.power_output_amps
      (fun r => strContains r.odata_id "HSC_0_Cur")
      (fun r => (env.sensor (relUrl r.odata_id)).reading) ?_ ?_ _ env.pdb c0 hc0
    · intro h r hr
      rw [pmHsc0]
      by_cases hpwr : strContains r.odata_id "HSC_0_Pwr" <;> simp [hpwr, hr]
    · intro h r hr
      rw [pmHsc0]
      by_cases hpwr : strContains r.odata_id "HSC_0_Pwr" <;> simp [hpwr, hr]
  · rw [hsnd]
    refine foldl_proj_last _ PowerSupply.power_output_watts
      (fun r => strContains r.odata_id "HSC_1_Pwr")
      (fun r => (env.sensor (relUrl r.odata_id)).reading) ?_ ?_ _ env.pdb p1 hp1
    · intro h r hr
      rw [pmHsc1]
      simp only [hr, if_pos]
      by_cases hcur : strContains r.odata_id "HSC_1_Cur" <;> simp [hcur]
    · intro h r hr
      rw [pmHsc1]
      simp only [hr, Bool.false_eq_true, if_neg, not_false_iff]
      by_cases hcur : strContains r.odata_id "HSC_1_Cur" <;> simp [hcur]
  · rw [hsnd]
    refine foldl_proj_last _ PowerSupply.power_capacity_watts
      (fun r => strContains r.odata_id "HSC_1_Pwr")
      (fun r => (env.sensor (relUrl r.odata_id)).reading_range_max) ?_ ?_ _ env.pdb p1 hp1
    · intro h r hr
      rw [pmHsc1]
      simp only [hr, if_pos]
      by_cases hcur : strContains r.odata_id "HSC_1_Cur" <;> simp [hcur]
    · intro h r hr
      rw [pmHsc1]
      simp only [hr, Bool.false_eq_true, if_neg, not_false_iff]
      by_cases hcur : strContains r.odata_id "HSC_1_Cur" <;> simp [hcur]
  · rw [hsnd]
    refine foldl_proj_last _ PowerSupply.power_output_amps
      (fun r => strContains r.odata_id "HSC_1_Cur")
      (fun r => (env.sensor (relUrl r.odata_id)).reading) ?_ ?_ _ env.pdb c1 hc1
    · intro h r hr
      rw [pmHsc1]
      by_cases hpwr : strContains r.odata_id "HSC_1_Pwr" <;> simp [hpwr, hr]
    · intro h r hr
      rw [pmHsc1]
      by_cases hpwr : strContains r.odata_id "HSC_1_Pwr" <;> simp [hpwr, hr]
  · have := pm_outer_volt_len env env.chassis_all st0
    rw [hfold] at this
    rw [this, sum_map_ite]
    simp [hst0]

/-- Concrete environment mirroring spec scenario S2: chassis PDB_0,
Chassis_0 and HGX_GPU_0; the four HSC sensors under PDB_0/Sensors with
readings 250/20 and 240/19 and range-max 500; two Volt sensors under
Chassis_0/Sensors. -/
def envS2 : PmEnv where
  pdb :=
    { last_power_output_watts := none, power_output_watts := none,
      power_capacity_watts := none, power_output_amps := none }
  chassis_all := ["PDB_0", "Chassis_0", "HGX_GPU_0"]
  has_sensors := fun c => c = "PDB_0" || c = "Chassis_0"
  sensors_members := fun c =>
    if c = "PDB_0" then
      [{ odata_id := "HSC_0_Pwr" }, { odata_id := "HSC_0_Cur" },
       { odata_id := "HSC_1_Pwr" }, { odata_id := "HSC_1_Cur" }]
    else if c = "Chassis_0" then
      [{ odata_id := "CPU_Volt_0" }, { odata_id := "CPU_Volt_1" }]
    else []
  sensor := fun u =>
    if u = "HSC_0_Pwr" then { odata_id := u, reading := some 250, reading_range_max := some 500 }
    else if u = "HSC_0_Cur" then { odata_id := u, reading := some 20, reading_range_max := none }
    else if u = "HSC_1_Pwr" then { odata_id := u, reading := some 240, reading_range_max := some 500 }
    else if u = "HSC_1_Cur" then { odata_id := u, reading := some 19, reading_range_max := none }
    else { odata_id := u, reading := none, reading_range_max := none }

/-- Witness for claim C3 at the S2 environment: two power supplies with
watts 250/240, capacity 500/500 and amps 20/19, and two voltage entries. -/
theorem get_power_metrics_behavior_witness :
    ∃ h0 h1 volts,
      (get_power_metrics envS2).power_supplies = some [h0, h1]
      ∧ (get_power_metrics envS2).voltages = some volts
      ∧ h0.power_output_watts = some 250
      ∧ h0.power_capacity_watts = some 500
      ∧ h0.power_output_amps = some 20
      ∧ h1.power_output_watts = some 240
      ∧ h1.power_capacity_watts = some 500
      ∧ h1.power_output_amps = some 19
      ∧ volts.length = 2 := by
  obtain ⟨h0, h1, volts, hps, hv, hw0, hcap0, ha0, hw1, hcap1, ha1, hlen⟩ :=
    get_power_metrics_behavior envS2 (by decide) (by decide) (by decide)
      { odata_id := "HSC_0_Pwr" } { odata_id := "HSC_0_Cur" }
      { odata_id := "HSC_1_Pwr" } { odata_id := "HSC_1_Cur" }
      (by decide) (by decide) (by decide) (by decide)
  exact ⟨h0, h1, volts, hps, hv, hw0.trans (by decide), hcap0.trans (by decide),
    ha0.trans (by decide), hw1.trans (by decide), hcap1.trans (by decide),
    ha1.trans (by decide), hlen.trans (by decide)⟩

/-- Modelled from the spec: the Status sub-object of a Redfish resource (its
model file is missing from the slice); the State field is optional JSON. -/
structure DeviceStatus where
  state : Option String
deriving DecidableEq, Repr

/-- Modelled from the spec: PCIeDevice (its model file is missing from the
slice); the GB200 code consumes id, status and manufacturer, all optional. -/
structure PCIeDevice where
  id : Option String
  status : Option DeviceStatus
  manufacturer : Option String
deriving DecidableEq, Repr

/-- Modelled from the spec: the PCIeDevices collection body, a member list
of odata_id refs. -/
structure PCIeDevices where
  members : List ODataRef
deriving DecidableEq, Repr

/-- The slice of a decoded Chassis body that pcie_devices consumes: the
optional link to the chassis PCIeDevices collection. -/
structure ChassisView where
  pcie_devices : Option ODataRef
deriving DecidableEq, Repr

/-- The decoded BMC responses the GB200 pcie walk consumes; each fetch may
fail with a RedfishError, which the source treats differently per call
site. -/
structure PcieEnv where
  chassis_all : List String
  get_chassis : String → Except RedfishError ChassisView
  get_collection : String → Except RedfishError PCIeDevices
  get_device : String → Except RedfishError PCIeDevice

/-- Outcome of an operation in a source language whose unwrap can panic:
a value, a typed error, or a panic. -/
inductive POut (α : Type) : Type
  | ok (a : α)
  | err (e : RedfishError)
  | panicked
deriving DecidableEq, Repr

/-- The filter applied to each fetched PCIe device, following the source's
short-circuit order: a device without id or without status is skipped; a
device with a status but no state hits unwrap() of None, a panic; otherwise
the device is kept iff the lowercased state contains enabled. -/
def pcieKeep (p : PCIeDevice) : Option Bool :=
  if p.id.isNone then some false
  else
    match p.status with
    | none => some false
    | some st =>
      match st.state with
      | none => none
      | some s => some (strContains (lowerStr s) "enabled")

/-- The inner device loop of pcie_devices: fetch each member (errors
propagate via the question-mark operator), apply the filter, and push kept
devices. -/
def pcieDevLoop (env : PcieEnv) : List ODataRef → List PCIeDevice → POut (List PCIeDevice)
  | [], acc => POut.ok acc
  | m :: rest, acc =>
    match env.get_device (relUrl m.odata_id) with
    | Except.error e => POut.err e
    | Except.ok p =>
      match pcieKeep p with
      | none => POut.panicked
      | some true => pcieDevLoop env rest (acc ++ [p])
      | some false => pcieDevLoop env rest acc

/-- The chassis loop of pcie_devices: chassis whose id contains BMC are
skipped, a chassis fetch error propagates, a chassis without a PCIeDevices
link contributes nothing, a collection fetch error is swallowed (continue),
and the member devices are folded through pcieDevLoop. -/
def pcieChassisLoop (env : PcieEnv) : List String → List PCIeDevice → POut (List PCIeDevice)
  | [], acc => POut.ok acc
  | cid :: rest, acc =>
    if strContains cid "BMC" then pcieChassisLoop env rest acc
    else
      match env.get_chassis cid with
      | Except.error e => POut.err e
      | Except.ok ch =>
        match ch.pcie_devices with
        | none => pcieChassisLoop env rest acc
        | some member =>
          match env.get_collection (relUrl member.odata_id) with
          | Except.error _ => pcieChassisLoop env rest acc
          | Except.ok devices =>
            match pcieDevLoop env devices.members acc with
            | POut.ok acc2 => pcieChassisLoop env rest acc2
            | POut.err e => POut.err e
            | POut.panicked => POut.panicked

/-- The comparator of the final sort: Option ordering on manufacturer with
None least and lexicographic order on the strings, as partial_cmp gives on
Option of String. -/
def manLe (a b : Option String) : Bool :=
  match a, b with
  | none, _ => true
  | some _, none => false
  | some x, some y => decide (x ≤ y)

/-- Comparator lifted to devices. -/
def devLe (a b : PCIeDevice) : Prop := manLe a.manufacturer b.manufacturer = true

instance : DecidableRel devLe := fun a b => by
  rw [devLe]
  infer_instance

/-- Bmc::pcie_devices: the chassis walk followed by the sort on
manufacturer.  The source uses sort_unstable_by; the model uses insertion
sort with the same comparator, which agrees on sortedness and on the
multiset of elements (tie order is not guaranteed by the source). -/
def pcie_devices (env : PcieEnv) : POut (List PCIeDevice) :=
  match pcieChassisLoop env env.chassis_all [] with
  | POut.ok out => POut.ok (List.insertionSort devLe out)
  | POut.err e => POut.err e
  | POut.panicked => POut.panicked

/-- The state recorded in a device's status, when both are present. -/
def statusState (p : PCIeDevice) : Option String :=
  p.status.bind DeviceStatus.state

/-- The manufacturer comparator is total. -/
theorem manLe_total (a b : Option String) : manLe a b = true ∨ manLe b a = true := by
  cases a with
  | none => left; rfl
  | some x =>
    cases b with
    | none => right; rfl
    | some y =>
      rcases le_total x y with h | h
      · left; simp [manLe, h]
      · right; simp [manLe, h]

/-- The manufacturer comparator is transitive. -/
theorem manLe_trans (a b c : Option String)
    (hab : manLe a b = true) (hbc : manLe b c = true) : manLe a c = true := by
  cases a with
  | none => rfl
  | some x =>
    cases b with
    | none => simp [manLe] at hab
    | some y =>
      cases c with
      | none => simp [manLe] at hbc
      | some z =>
        simp only [manLe, decide_eq_true_eq] at hab hbc ⊢
        exact le_trans hab hbc

instance : IsTotal PCIeDevice devLe :=
  ⟨fun a b => manLe_total a.manufacturer b.manufacturer⟩

instance : IsTrans PCIeDevice devLe :=
  ⟨fun a b c => manLe_trans a.manufacturer b.manufacturer c.manufacturer⟩

/-- A device the filter keeps has an id and a lowercased state containing
enabled. -/
theorem pcieKeep_spec (p : PCIeDevice) (h : pcieKeep p = some true) :
    p.id.isSome = true
      ∧ ∃ s, statusState p = some s ∧ strContains (lowerStr s) "enabled" = true := by
  cases hid : p.id with
  | none => simp [pcieKeep, hid] at h
  | some i =>
    cases hst : p.status with
    | none => simp [pcieKeep, hid, hst] at h
    | some st =>
      cases hs : st.state with
      | none => simp [pcieKeep, hid, hst, hs] at h
      | some s =>
        simp only [pcieKeep, hid, hst, hs, Option.isNone_some, Bool.false_eq_true, if_neg,
          not_false_iff, Option.some.injEq] at h
        exact ⟨by simp [hid], s, by simp [statusState, hst, hs], h⟩

/-- Every element the inner device loop returns was already accumulated or
passed the filter. -/
theorem pcieDevLoop_mem (env : PcieEnv) :
    ∀ (ms : List ODataRef) (acc out : List PCIeDevice),
      pcieDevLoop env ms acc = POut.ok out →
      ∀ p ∈ out, p ∈ acc ∨ pcieKeep p = some true := by
  intro ms
  induction ms with
  | nil =>
    intro acc out h p hp
    rw [pcieDevLoop] at h
    cases h
    exact Or.inl hp
  | cons m rest ih =>
    intro acc out h p hp
    rw [pcieDevLoop] at h
    cases hd : env.get_device (relUrl m.odata_id) with
    | error e => simp [hd] at h
    | ok q =>
      simp only [hd] at h
      cases hk : pcieKeep q with
      | none => simp [hk] at h
      | some b =>
        simp only [hk] at h
        cases b with
        | true =>
          rcases ih (acc ++ [q]) out h p hp with hmem | hkeep
          · rcases List.mem_append.mp hmem with hacc | hq
            · exact Or.inl hacc
            · right
              rw [List.mem_singleton.mp hq]
              exact hk
          · exact Or.inr hkeep
        | false =>
          exact ih acc out h p hp

/-- Every element the chassis loop returns was already accumulated or
passed the filter. -/
theorem pcieChassisLoop_mem (env : PcieEnv) :
    ∀ (cs : List String) (acc out : List PCIeDevice),
      pcieChassisLoop env cs acc = POut.ok out →
      ∀ p ∈ out, p ∈ acc ∨ pcieKeep p = some true := by
  intro cs
  induction cs with
  | nil =>
    intro acc out h p hp
    rw [pcieChassisLoop] at h
    cases h
    exact Or.inl hp
  | cons cid rest ih =>
    intro acc out h p hp
    rw [pcieChassisLoop] at h
    by_cases hbmc : strContains cid "BMC"
    · rw [if_pos hbmc] at h
      exact ih acc out h p hp
    · rw [if_neg hbmc] at h
      cases hch : env.get_chassis cid with
      | error e => simp [hch] at h
      | ok ch =>
        simp only [hch] at h
        cases hpd : ch.pcie_devices with
        | none =>
          simp only [hpd] at h
          exact ih acc out h p hp
        | some member =>
          simp only [hpd] at h
          cases hcol : env.get_collection (relUrl member.odata_id) with
          | error e =>
            simp only [hcol] at h
            exact ih acc out h p hp
          | ok devices =>
            simp only [hcol] at h
            cases hdl : pcieDevLoop env devices.members acc with
            | ok acc2 =>
              simp only [hdl] at h
              rcases ih acc2 out h p hp with hmem | hkeep
              · rcases pcieDevLoop_mem env devices.members acc acc2 hdl p hmem with
                  hacc | hkeep2
                · exact Or.inl hacc
                · exact Or.inr hkeep2
              · exact Or.inr hkeep
            | err e => simp [hdl] at h
            | panicked => simp [hdl] at h

/-- Claim C4 (amended): when pcie_devices succeeds, the returned list is
sorted by manufacturer (None first, lexicographic otherwise) and is a
permutation of the devices collected from the non-BMC chassis walk, each of
which has an id and a Status whose lowercased State CONTAINS enabled (the
source tests contains, not equality, and uses an unstable sort, so tie
order carries no guarantee). -/
theorem pcie_devices_amended (env : PcieEnv) (l : List PCIeDevice)
    (h : pcie_devices env = POut.ok l) :
    List.Sorted devLe l
      ∧ (∀ p ∈ l, p.id.isSome = true
          ∧ ∃ s, statusState p = some s ∧ strContains (lowerStr s) "enabled" = true)
      ∧ ∃ pre, pcieChassisLoop env env.chassis_all [] = POut.ok pre ∧ l.Perm pre := by
  rw [pcie_devices] at h
  cases hpre : pcieChassisLoop env env.chassis_all [] with
  | ok pre =>
    rw [hpre] at h
    cases h
    refine ⟨List.sorted_insertionSort devLe pre, ?_, pre, rfl, List.perm_insertionSort devLe pre⟩
    intro p hp
    have hp2 : p ∈ pre := (List.perm_insertionSort devLe pre).mem_iff.mp hp
    rcases pcieChassisLoop_mem env env.chassis_all [] pre hpre p hp2 with hnil | hkeep
    · cases hnil
    · exact pcieKeep_spec p hkeep
  | err e => rw [hpre] at h; cases h
  | panicked => rw [hpre] at h; cases h

/-- The device kept by the C4 counterexample environment: its State is
ReEnabled, not Enabled, yet the filter keeps it. -/
def dRe : PCIeDevice where
  id := some "dev0"
  status := some { state := some "ReEnabled" }
  manufacturer := some "acme"

/-- The C4 counterexample environment: one chassis with one PCIe device
whose State is ReEnabled. -/
def envC4 : PcieEnv where
  chassis_all := ["Chassis_0"]
  get_chassis := fun _ =>
    Except.ok { pcie_devices := some { odata_id := "/redfish/v1/Chassis/Chassis_0/PCIeDevices" } }
  get_collection := fun _ =>
    Except.ok { members := [{ odata_id := "/redfish/v1/Chassis/Chassis_0/PCIeDevices/dev0" }] }
  get_device := fun _ => Except.ok dRe

/-- Claim C4 counterexample: pcie_devices keeps a device whose State is
ReEnabled, so it does not keep only devices whose State is Enabled. -/
theorem pcie_devices_counterexample :
    pcie_devices envC4 = POut.ok [dRe]
      ∧ statusState dRe = some "ReEnabled"
      ∧ ("ReEnabled" : String) ≠ "Enabled" := by
  decide

/-- Witness for the amended claim C4 at the counterexample environment. -/
theorem pcie_devices_amended_witness :
    List.Sorted devLe [dRe] ∧ dRe.id.isSome = true := by
  have h := pcie_devices_amended envC4 [dRe] (by decide)
  exact ⟨h.1, (h.2.1 dRe (List.mem_singleton_self dRe)).1⟩

/-- The device that makes pcie_devices panic: Status present, State absent. -/
def dPanic : PCIeDevice where
  id := some "dev0"
  status := some { state := none }
  manufacturer := none

/-- The C8 failing environment: one chassis whose single PCIe device has a
Status but no State. -/
def envC8 : PcieEnv where
  chassis_all := ["Chassis_0"]
  get_chassis := fun _ =>
    Except.ok { pcie_devices := some { odata_id := "/redfish/v1/Chassis/Chassis_0/PCIeDevices" } }
  get_collection := fun _ =>
    Except.ok { members := [{ odata_id := "/redfish/v1/Chassis/Chassis_0/PCIeDevices/dev0" }] }
  get_device := fun _ => Except.ok dPanic

/-- Claim C8 (code-bug evidence): a decoded device whose Status is present
but whose State is absent drives pcie_devices into the unwrap panic rather
than a typed error, refuting totality over all decoded response shapes. -/
theorem pcie_devices_panics_on_absent_state :
    pcie_devices envC8 = POut.panicked ∧ pcieKeep dPanic = none := by
  decide
